import Mathlib

/-!
Verification of the amortization calculation engine of the clear-calculator
repository (`AmortizationService`, revision with `InsufficientRateError`).

The engine is embedded shallowly:

* JavaScript monetary values are modelled as rationals (`ℚ`).  The source's
  `roundToTwoDecimals` uses a string-exponent trick (`Number(value + 'e+2')`)
  precisely so that it behaves as exact decimal round-half-up on the decimal
  reading of its argument; `roundToTwoDecimals` below is that exact function
  on `ℚ`.  Its NaN/Infinity guard cannot fire on `ℚ` and is therefore absent.
* JavaScript `Date` values produced by the engine are always results of
  `new Date(year, month, 0)`; `JsDate`/`monthEnd` model that constructor with
  its month normalization (floor division) and Gregorian month lengths.
* The validator `isValidLoanData` also has to be faithful on non-finite
  inputs, so it operates on `JsVal`, a model of a dynamically typed
  JavaScript value (finite number, `Infinity`, `-Infinity`, `NaN`, or a
  non-number).  The engine itself is given finite (`ℚ`) inputs and runs the
  validator through the embedding `LoanData.toJs`.
* Thrown errors are modelled with `Except`: `calculateAmortizationPlan`
  returns either an error token or the full schedule, so no partial schedule
  can escape on failure, exactly as a thrown exception discards the local
  array in the source.
* The `new Date()` call (the current date at invocation time) is an explicit
  `today : JsDate` parameter.
* The JavaScript loop `for (let i = 0; i < numberOfPayments; i++)` with a
  possibly non-integral `numberOfPayments` runs `max 0 ⌈numberOfPayments⌉`
  times, which `Int.toNat ⌈·⌉` reproduces.
-/

/-- Gregorian calendar date as produced by the JavaScript `Date` constructor
(`year`, zero-based `month`, day of month). -/
structure JsDate where
  year : Int
  month : Int
  day : Int
deriving DecidableEq, Repr

def isLeapYear (y : Int) : Bool :=
  y % 4 == 0 && (y % 100 != 0 || y % 400 == 0)

/-- Number of days of the zero-based month `m` of year `y` (`m` in `0..11`). -/
def daysInMonth (y : Int) (m : Int) : Int :=
  if m == 1 then (if isLeapYear y then 29 else 28)
  else if m == 3 || m == 5 || m == 8 || m == 10 then 30
  else 31

/-- `new Date(y, m + 1, 0)` for the absolute month index `am = y * 12 + m`:
the last day of month `am`.  JavaScript normalizes an out-of-range month by
floor division, which is `Int.ediv`/`Int.emod` for the positive modulus 12. -/
def monthEnd (am : Int) : JsDate :=
  { year := Int.ediv am 12, month := Int.emod am 12,
    day := daysInMonth (Int.ediv am 12) (Int.emod am 12) }

/-- `getMonthEndDate(date)` = `new Date(date.getFullYear(), date.getMonth() + 1, 0)`. -/
def getMonthEndDate (date : JsDate) : JsDate :=
  monthEnd (date.year * 12 + date.month)

/-- `getNextMonthEndDate(date)` = `new Date(date.getFullYear(), date.getMonth() + 2, 0)`. -/
def getNextMonthEndDate (date : JsDate) : JsDate :=
  monthEnd (date.year * 12 + date.month + 1)

/-- `roundToTwoDecimals`: exact round-half-up to two decimal places, the
behaviour of `Number(Math.round(Number(value + 'e+2')) + 'e-2')`
(`Math.round x = ⌊x + 1/2⌋`, halves rounding toward `+∞`). -/
def roundToTwoDecimals (value : ℚ) : ℚ :=
  (⌊value * 100 + 1 / 2⌋ : ℚ) / 100

/-- `ZERO_THRESHOLD = 0.005`, the service's half-a-cent tolerance. -/
def ZERO_THRESHOLD : ℚ := 5 / 1000

/-- A dynamically typed JavaScript value as seen by the validator: a finite
number, `Infinity`, `-Infinity`, `NaN`, or a value of non-number type. -/
inductive JsVal where
  | num : ℚ → JsVal
  | posInf : JsVal
  | negInf : JsVal
  | nan : JsVal
  | undef : JsVal
deriving DecidableEq, Repr

/-- `typeof v === 'number'` (`Infinity` and `NaN` are of type number). -/
def JsVal.isNumberType : JsVal → Bool
  | .undef => false
  | _ => true

/-- JavaScript comparison `v > c` against a finite constant `c`
(comparisons with `NaN` are false, `Infinity` exceeds every finite value). -/
def jsGt : JsVal → ℚ → Bool
  | .num q, c => decide (c < q)
  | .posInf, _ => true
  | .negInf, _ => false
  | .nan, _ => false
  | .undef, _ => false

/-- JavaScript comparison `v >= c` against a finite constant `c`. -/
def jsGe : JsVal → ℚ → Bool
  | .num q, c => decide (c ≤ q)
  | .posInf, _ => true
  | .negInf, _ => false
  | .nan, _ => false
  | .undef, _ => false

/-- The `LoanData` record with arbitrary JavaScript field values, as the
validator must handle it. -/
structure LoanDataJs where
  loanAmount : JsVal
  interestRate : JsVal
  initialRepayment : JsVal
  interestFixation : JsVal
deriving DecidableEq, Repr

/-- `isValidLoanData` (service revision with `InsufficientRateError`): the
argument may be `null`/`undefined` (`none`); each field must have type
number, `loanAmount > 0`, `interestRate >= 0` (0% allowed),
`initialRepayment > 0`, `interestFixation > 0`. -/
def isValidLoanData : Option LoanDataJs → Bool
  | none => false
  | some loanData =>
    loanData.loanAmount.isNumberType && jsGt loanData.loanAmount 0 &&
    loanData.interestRate.isNumberType && jsGe loanData.interestRate 0 &&
    loanData.initialRepayment.isNumberType && jsGt loanData.initialRepayment 0 &&
    loanData.interestFixation.isNumberType && jsGt loanData.interestFixation 0

/-- `LoanData` with finite numeric fields, the inputs the engine computes on. -/
structure LoanData where
  loanAmount : ℚ
  interestRate : ℚ
  initialRepayment : ℚ
  interestFixation : ℚ
deriving DecidableEq, Repr

/-- A finite `LoanData` seen as a record of JavaScript values. -/
def LoanData.toJs (d : LoanData) : LoanDataJs :=
  { loanAmount := .num d.loanAmount, interestRate := .num d.interestRate,
    initialRepayment := .num d.initialRepayment,
    interestFixation := .num d.interestFixation }

/-- One row of the schedule (`AmortizationEntry`). -/
structure AmortizationEntry where
  date : JsDate
  remainingDebt : ℚ
  interest : ℚ
  repayment : ℚ
  payment : ℚ
deriving DecidableEq, Repr

/-- `SummaryData`. -/
structure SummaryData where
  remainingDebt : ℚ
  totalInterestPaid : ℚ
  totalRepaymentPaid : ℚ
deriving DecidableEq, Repr

/-- The two error classes thrown by `calculateAmortizationPlan`. -/
inductive CalcError where
  | invalidLoanData : CalcError
  | insufficientRate : CalcError
deriving DecidableEq, Repr

/-- `_calculateMonthlyPayment`. -/
def _calculateMonthlyPayment (loanAmount interestRate initialRepayment : ℚ) : ℚ :=
  let annualPayment := loanAmount * (interestRate / 100 + initialRepayment / 100)
  roundToTwoDecimals (annualPayment / 12)

/-- `_createDisbursementEntry`. -/
def _createDisbursementEntry (loanAmount : ℚ) (date : JsDate) : AmortizationEntry :=
  let roundedAmount := roundToTwoDecimals loanAmount
  { date := date, remainingDebt := -roundedAmount, interest := 0,
    repayment := -roundedAmount, payment := -roundedAmount }

/-- `_createZeroEntry`. -/
def _createZeroEntry (currentDate : JsDate) : AmortizationEntry :=
  { date := currentDate, remainingDebt := 0, interest := 0, repayment := 0,
    payment := 0 }

/-- `_calculateNextPaymentEntry`.  The source mutates `principalPayment` and
`actualPayment`; the successive values are the numbered bindings below. -/
def _calculateNextPaymentEntry (previousBalance monthlyPayment monthlyInterestRate : ℚ)
    (currentDate : JsDate) : AmortizationEntry :=
  if previousBalance > 0 then _createZeroEntry currentDate
  else
    let interest : ℚ :=
      if |previousBalance| < ZERO_THRESHOLD then 0
      else roundToTwoDecimals (-previousBalance * monthlyInterestRate)
    let principalPayment0 := roundToTwoDecimals (monthlyPayment - interest)
    let absoluteBalanceBeforePayment := -previousBalance
    let principalPayment1 :=
      if absoluteBalanceBeforePayment > 0 ∧
          principalPayment0 ≥ absoluteBalanceBeforePayment - ZERO_THRESHOLD
      then absoluteBalanceBeforePayment else principalPayment0
    let actualPayment1 :=
      if absoluteBalanceBeforePayment > 0 ∧
          principalPayment0 ≥ absoluteBalanceBeforePayment - ZERO_THRESHOLD
      then roundToTwoDecimals (interest + absoluteBalanceBeforePayment)
      else monthlyPayment
    let principalPayment2 := if principalPayment1 < 0 then 0 else principalPayment1
    let actualPayment2 :=
      if principalPayment1 < 0 then roundToTwoDecimals (interest + 0) else actualPayment1
    let newBalance := roundToTwoDecimals (previousBalance + principalPayment2)
    let newBalance2 := if |newBalance| < ZERO_THRESHOLD then 0 else newBalance
    { date := currentDate, remainingDebt := newBalance2,
      interest := roundToTwoDecimals interest,
      repayment := roundToTwoDecimals principalPayment2,
      payment := roundToTwoDecimals actualPayment2 }

/-- The payment loop of `calculateAmortizationPlan`: each iteration reads the
previous entry's `remainingDebt`, emits a zero entry if it is within
`ZERO_THRESHOLD` of zero and a payment entry otherwise, then advances the
date by one month. -/
def buildEntries (monthlyPayment monthlyInterestRate : ℚ) :
    Nat → ℚ → JsDate → List AmortizationEntry
  | 0, _, _ => []
  | n + 1, previousBalance, currentDate =>
    let e :=
      if |previousBalance| < ZERO_THRESHOLD then _createZeroEntry currentDate
      else _calculateNextPaymentEntry previousBalance monthlyPayment monthlyInterestRate
        currentDate
    e :: buildEntries monthlyPayment monthlyInterestRate n e.remainingDebt
      (getNextMonthEndDate currentDate)

/-- `calculateAmortizationPlan`, with the invocation-time date made explicit. -/
def calculateAmortizationPlan (today : JsDate) (loanData : LoanData) :
    Except CalcError (List AmortizationEntry) :=
  if !isValidLoanData (some loanData.toJs) then
    Except.error CalcError.invalidLoanData
  else
    let monthlyInterestRate := loanData.interestRate / 100 / 12
    let numberOfPayments := loanData.interestFixation * 12
    let monthlyPayment :=
      _calculateMonthlyPayment loanData.loanAmount loanData.interestRate
        loanData.initialRepayment
    let firstMonthInterest := roundToTwoDecimals (loanData.loanAmount * monthlyInterestRate)
    if monthlyPayment ≤ firstMonthInterest + ZERO_THRESHOLD then
      Except.error CalcError.insufficientRate
    else
      let currentDate := getMonthEndDate today
      let disbursement := _createDisbursementEntry loanData.loanAmount currentDate
      Except.ok (disbursement ::
        buildEntries monthlyPayment monthlyInterestRate (Int.toNat ⌈numberOfPayments⌉)
          disbursement.remainingDebt (getNextMonthEndDate currentDate))

/-- `calculateSummaryData` (a `null` plan is the empty list). -/
def calculateSummaryData (amortizationPlan : List AmortizationEntry) : SummaryData :=
  if amortizationPlan.isEmpty then
    { remainingDebt := 0, totalInterestPaid := 0, totalRepaymentPaid := 0 }
  else
    let paymentEntries := amortizationPlan.drop 1
    let totalInterestPaid :=
      paymentEntries.foldl (fun sum entry => sum + entry.interest) 0
    let totalRepaymentPaid :=
      paymentEntries.foldl (fun sum entry => sum + entry.repayment) 0
    let remainingDebt :=
      match amortizationPlan.getLast? with
      | some lastEntry => roundToTwoDecimals lastEntry.remainingDebt
      | none => 0
    { remainingDebt := remainingDebt,
      totalInterestPaid := roundToTwoDecimals totalInterestPaid,
      totalRepaymentPaid := roundToTwoDecimals totalRepaymentPaid }

/-- The constant monthly installment the schedule generator uses for `d`. -/
def monthlyPaymentOf (d : LoanData) : ℚ :=
  _calculateMonthlyPayment d.loanAmount d.interestRate d.initialRepayment

/-- `firstMonthInterest` as computed by `calculateAmortizationPlan` for `d`. -/
def firstMonthInterestOf (d : LoanData) : ℚ :=
  roundToTwoDecimals (d.loanAmount * (d.interestRate / 100 / 12))

/-- A rational is an exact two-decimal (whole-cent) amount. -/
def Cent (q : ℚ) : Prop := ∃ n : ℤ, q = (n : ℚ) / 100

/-- The balance/principal bookkeeping invariant along a list of payment
entries, threading the running balance `prev`: every entry has a
non-positive ending balance, a whole-cent principal portion, and an ending
balance equal (exactly) to the previous balance plus its principal portion. -/
def chainOK : ℚ → List AmortizationEntry → Prop
  | _, [] => True
  | prev, e :: rest =>
    e.remainingDebt ≤ 0 ∧ Cent e.repayment ∧
      e.remainingDebt = prev + e.repayment ∧ chainOK e.remainingDebt rest

/-- All four monetary fields of the entry are zero. -/
def isZeroEntry (e : AmortizationEntry) : Prop :=
  e.remainingDebt = 0 ∧ e.interest = 0 ∧ e.repayment = 0 ∧ e.payment = 0

/-- The four monetary fields of an entry, i.e. the entry without its date. -/
def entryNumbers (e : AmortizationEntry) : ℚ × ℚ × ℚ × ℚ :=
  (e.remainingDebt, e.interest, e.repayment, e.payment)

/-- Ending balance of the last entry of `l`, or `b` when `l` is empty. -/
def lastBalance (b : ℚ) : List AmortizationEntry → ℚ
  | [] => b
  | e :: rest => lastBalance e.remainingDebt rest

/-- Validator following the words of the specification (for comparison with
the implementation in claim C7): true iff the candidate is non-null and all
four fields are present, are finite numbers, and satisfy `loanAmount > 0`,
`interestRate >= 0`, `initialRepayment > 0`, `interestFixation > 0`.  A
non-finite value (`Infinity`, `-Infinity`, `NaN`) is not a finite number and
fails this predicate. -/
def isValidLoanDataSpec : Option LoanDataJs → Bool
  | none => false
  | some d =>
    (match d.loanAmount with | .num q => decide (0 < q) | _ => false) &&
    (match d.interestRate with | .num q => decide (0 ≤ q) | _ => false) &&
    (match d.initialRepayment with | .num q => decide (0 < q) | _ => false) &&
    (match d.interestFixation with | .num q => decide (0 < q) | _ => false)

/-- Fixed sample invocation date used by concrete witnesses. -/
def t0 : JsDate := { year := 2026, month := 0, day := 15 }

/-- A second sample invocation date, five months later. -/
def t1 : JsDate := { year := 2026, month := 5, day := 10 }

/-- Sample input: 10 at 0% with 120% initial repayment over 1/12 year. -/
def exD1 : LoanData :=
  { loanAmount := 10, interestRate := 0, initialRepayment := 120,
    interestFixation := 1/12 }

/-- The schedule of `exD1` when invoked at `t0`. -/
def exList1 : List AmortizationEntry :=
  [ { date := { year := 2026, month := 0, day := 31 }, remainingDebt := -10,
      interest := 0, repayment := -10, payment := -10 },
    { date := { year := 2026, month := 1, day := 28 }, remainingDebt := -9,
      interest := 0, repayment := 1, payment := 1 } ]

/-- Sample input whose payment cannot amortize the first month's interest:
1000 at 12% with 0.001% initial repayment. -/
def exD2 : LoanData :=
  { loanAmount := 1000, interestRate := 12, initialRepayment := 1/1000,
    interestFixation := 1 }

/-- The specification's example scenario: 100000 at 5% with 2% initial
repayment over one year. -/
def exD4 : LoanData :=
  { loanAmount := 100000, interestRate := 5, initialRepayment := 2,
    interestFixation := 1 }

/-- The schedule of `exD4` when invoked at `t0`. -/
def exList4 : List AmortizationEntry :=
  [ { date := { year := 2026, month := 0, day := 31 }, remainingDebt := -100000,
      interest := 0, repayment := -100000, payment := -100000 },
    { date := { year := 2026, month := 1, day := 28 }, remainingDebt := -99833.34,
      interest := 416.67, repayment := 166.66, payment := 583.33 },
    { date := { year := 2026, month := 2, day := 31 }, remainingDebt := -99665.98,
      interest := 415.97, repayment := 167.36, payment := 583.33 },
    { date := { year := 2026, month := 3, day := 30 }, remainingDebt := -99497.92,
      interest := 415.27, repayment := 168.06, payment := 583.33 },
    { date := { year := 2026, month := 4, day := 31 }, remainingDebt := -99329.16,
      interest := 414.57, repayment := 168.76, payment := 583.33 },
    { date := { year := 2026, month := 5, day := 30 }, remainingDebt := -99159.70,
      interest := 413.87, repayment := 169.46, payment := 583.33 },
    { date := { year := 2026, month := 6, day := 31 }, remainingDebt := -98989.54,
      interest := 413.17, repayment := 170.16, payment := 583.33 },
    { date := { year := 2026, month := 7, day := 31 }, remainingDebt := -98818.67,
      interest := 412.46, repayment := 170.87, payment := 583.33 },
    { date := { year := 2026, month := 8, day := 30 }, remainingDebt := -98647.08,
      interest := 411.74, repayment := 171.59, payment := 583.33 },
    { date := { year := 2026, month := 9, day := 31 }, remainingDebt := -98474.78,
      interest := 411.03, repayment := 172.30, payment := 583.33 },
    { date := { year := 2026, month := 10, day := 30 }, remainingDebt := -98301.76,
      interest := 410.31, repayment := 173.02, payment := 583.33 },
    { date := { year := 2026, month := 11, day := 31 }, remainingDebt := -98128.02,
      interest := 409.59, repayment := 173.74, payment := 583.33 },
    { date := { year := 2027, month := 0, day := 31 }, remainingDebt := -97953.56,
      interest := 408.87, repayment := 174.46, payment := 583.33 } ]

/-- Sample input that fully amortizes with its first installment. -/
def exD5 : LoanData :=
  { loanAmount := 10, interestRate := 0, initialRepayment := 1200,
    interestFixation := 1/12 }

/-- The schedule of `exD5` when invoked at `t0`. -/
def exList5 : List AmortizationEntry :=
  [ { date := { year := 2026, month := 0, day := 31 }, remainingDebt := -10,
      interest := 0, repayment := -10, payment := -10 },
    { date := { year := 2026, month := 1, day := 28 }, remainingDebt := 0,
      interest := 0, repayment := 10, payment := 10 } ]

/-- Sample input that pays off after one of its two installments. -/
def exD8 : LoanData :=
  { loanAmount := 10, interestRate := 0, initialRepayment := 2400,
    interestFixation := 1/6 }

/-- The schedule of `exD8` when invoked at `t0`: payoff, then a zero entry. -/
def exList8 : List AmortizationEntry :=
  [ { date := { year := 2026, month := 0, day := 31 }, remainingDebt := -10,
      interest := 0, repayment := -10, payment := -10 },
    { date := { year := 2026, month := 1, day := 28 }, remainingDebt := 0,
      interest := 0, repayment := 10, payment := 10 },
    { date := { year := 2026, month := 2, day := 31 }, remainingDebt := 0,
      interest := 0, repayment := 0, payment := 0 } ]

/-- Sample input with a non-integral fixed period of half a year. -/
def exD10 : LoanData :=
  { loanAmount := 1000, interestRate := 6, initialRepayment := 3,
    interestFixation := 1/2 }

/-- A candidate `LoanData` whose loan amount is `Infinity`. -/
def nonFiniteLoanData : LoanDataJs :=
  { loanAmount := JsVal.posInf, interestRate := JsVal.num 5,
    initialRepayment := JsVal.num 2, interestFixation := JsVal.num 1 }

/-! ### Rounding and whole-cent lemmas -/

theorem cent_zero : Cent 0 := ⟨0, by norm_num⟩

theorem cent_neg {q : ℚ} (h : Cent q) : Cent (-q) := by
  obtain ⟨n, rfl⟩ := h
  exact ⟨-n, by push_cast; ring⟩

theorem cent_add {p q : ℚ} (hp : Cent p) (hq : Cent q) : Cent (p + q) := by
  obtain ⟨n, rfl⟩ := hp
  obtain ⟨m, rfl⟩ := hq
  exact ⟨n + m, by push_cast; ring⟩

theorem round2_cent (q : ℚ) : Cent (roundToTwoDecimals q) :=
  ⟨⌊q * 100 + 1 / 2⌋, rfl⟩

theorem round2_of_cent {q : ℚ} (h : Cent q) : roundToTwoDecimals q = q := by
  obtain ⟨n, rfl⟩ := h
  unfold roundToTwoDecimals
  have h100 : (n : ℚ) / 100 * 100 = (n : ℚ) := by
    field_simp
  rw [h100, add_comm, Int.floor_add_int]
  norm_num

theorem cent_eq_zero_of_small {q : ℚ} (h : Cent q) (hs : |q| < ZERO_THRESHOLD) :
    q = 0 := by
  obtain ⟨n, rfl⟩ := h
  unfold ZERO_THRESHOLD at hs
  rw [abs_div] at hs
  have h100 : |(100 : ℚ)| = 100 := by norm_num
  rw [h100] at hs
  have hn : |(n : ℚ)| < 1 := by linarith
  have hn2 : |n| < 1 := by exact_mod_cast (by rwa [← Int.cast_abs] at hn : ((|n| : ℤ) : ℚ) < 1)
  have : n = 0 := Int.abs_lt_one_iff.mp hn2
  rw [this]
  norm_num

theorem round2_sub_le (q : ℚ) : |roundToTwoDecimals q - q| ≤ 1 / 200 := by
  unfold roundToTwoDecimals
  have h1 : ((⌊q * 100 + 1 / 2⌋ : ℤ) : ℚ) ≤ q * 100 + 1 / 2 := Int.floor_le _
  have h2 : q * 100 + 1 / 2 - 1 < ((⌊q * 100 + 1 / 2⌋ : ℤ) : ℚ) :=
    Int.sub_one_lt_floor _
  rw [abs_le]
  constructor <;> [linarith; linarith]

theorem round2_nonneg {q : ℚ} (h : 0 ≤ q) : 0 ≤ roundToTwoDecimals q := by
  unfold roundToTwoDecimals
  have h1 : (0 : ℚ) ≤ q * 100 + 1 / 2 := by linarith
  have h2 : (0 : ℤ) ≤ ⌊q * 100 + 1 / 2⌋ := Int.floor_nonneg.mpr h1
  have h3 : (0 : ℚ) ≤ ((⌊q * 100 + 1 / 2⌋ : ℤ) : ℚ) := by exact_mod_cast h2
  positivity

theorem zero_threshold_pos : (0 : ℚ) < ZERO_THRESHOLD := by
  norm_num [ZERO_THRESHOLD]

/-! ### The validator on finite inputs -/

theorem isValidLoanData_toJs (d : LoanData) :
    isValidLoanData (some d.toJs) = true ↔
      0 < d.loanAmount ∧ 0 ≤ d.interestRate ∧ 0 < d.initialRepayment ∧
        0 < d.interestFixation := by
  simp only [isValidLoanData, LoanData.toJs, jsGt, jsGe, JsVal.isNumberType,
    Bool.and_eq_true, decide_eq_true_eq]
  tauto

/-! ### One step of the payment loop -/

/-- The fields of a payment entry produced from a non-positive whole-cent
balance that is not yet within `ZERO_THRESHOLD` of zero: the new balance is
again non-positive and whole-cent, the recorded principal portion is
whole-cent, and the new balance is exactly the previous balance plus the
recorded principal portion. -/
theorem payStep_spec (prev mp mir : ℚ) (d : JsDate) (e : AmortizationEntry)
    (he : e = _calculateNextPaymentEntry prev mp mir d)
    (h1 : prev ≤ 0) (h2 : Cent prev) (hz : ¬ |prev| < ZERO_THRESHOLD) :
    e.remainingDebt ≤ 0 ∧ Cent e.remainingDebt ∧ Cent e.repayment ∧
      e.remainingDebt = prev + e.repayment := by
  have hng : ¬ prev > 0 := not_lt.mpr h1
  have habs : ZERO_THRESHOLD ≤ -prev := by
    rw [abs_of_nonpos h1] at hz
    exact not_lt.mp hz
  have hA : -prev > 0 := lt_of_lt_of_le zero_threshold_pos habs
  subst he
  unfold _calculateNextPaymentEntry
  rw [if_neg hng, if_neg hz]
  dsimp only
  set I := roundToTwoDecimals (-prev * mir) with hI
  set P := roundToTwoDecimals (mp - I) with hP
  have hPc : Cent P := round2_cent _
  by_cases hclamp : -prev > 0 ∧ P ≥ -prev - ZERO_THRESHOLD
  · rw [if_pos hclamp]
    have hP1 : ¬ (-prev < 0) := not_lt.mpr (le_of_lt hA)
    rw [if_neg hP1]
    have hcancel : prev + -prev = 0 := by ring
    rw [hcancel, round2_of_cent cent_zero]
    rw [if_pos (by rw [abs_zero]; exact zero_threshold_pos)]
    refine ⟨le_refl 0, cent_zero, round2_cent _, ?_⟩
    rw [round2_of_cent (cent_neg h2)]
    ring
  · rw [if_neg hclamp]
    have hlt : P < -prev - ZERO_THRESHOLD := lt_of_not_ge (not_and.mp hclamp hA)
    by_cases hneg : P < 0
    · rw [if_pos hneg]
      rw [add_zero, round2_of_cent h2, if_neg hz]
      refine ⟨h1, h2, ?_, ?_⟩
      · rw [round2_of_cent cent_zero]
        exact cent_zero
      · rw [round2_of_cent cent_zero, add_zero]
    · rw [if_neg hneg]
      have hsum : roundToTwoDecimals (prev + P) = prev + P :=
        round2_of_cent (cent_add h2 hPc)
      rw [hsum]
      have hx : prev + P < -ZERO_THRESHOLD := by linarith
      have hsnap : ¬ |prev + P| < ZERO_THRESHOLD := by
        rw [abs_of_neg (by linarith [zero_threshold_pos])]
        exact not_lt.mpr (by linarith)
      rw [if_neg hsnap]
      refine ⟨by linarith [zero_threshold_pos], cent_add h2 hPc, ?_, ?_⟩
      · rw [round2_of_cent hPc]
        exact hPc
      · rw [round2_of_cent hPc]

/-! ### Invariants of the payment loop -/

/-- One iteration of the loop body (zero entry or payment entry) preserves
the invariant of `chainOK`. -/
theorem loopStep_spec (prev mp mir : ℚ) (d : JsDate) (e : AmortizationEntry)
    (he : e = if |prev| < ZERO_THRESHOLD then _createZeroEntry d
              else _calculateNextPaymentEntry prev mp mir d)
    (h1 : prev ≤ 0) (h2 : Cent prev) :
    e.remainingDebt ≤ 0 ∧ Cent e.remainingDebt ∧ Cent e.repayment ∧
      e.remainingDebt = prev + e.repayment := by
  by_cases hz : |prev| < ZERO_THRESHOLD
  · rw [if_pos hz] at he
    have h0 : prev = 0 := cent_eq_zero_of_small h2 hz
    subst he
    refine ⟨le_refl 0, cent_zero, cent_zero, ?_⟩
    rw [h0, _createZeroEntry]
    norm_num
  · rw [if_neg hz] at he
    exact payStep_spec prev mp mir d e he h1 h2 hz

theorem buildEntries_length (mp mir : ℚ) (n : ℕ) :
    ∀ (prev : ℚ) (d : JsDate), (buildEntries mp mir n prev d).length = n := by
  induction n with
  | zero => intro prev d; rfl
  | succ n ih =>
    intro prev d
    simp only [buildEntries, List.length_cons, ih]

theorem chainOK_buildEntries (mp mir : ℚ) (n : ℕ) :
    ∀ (prev : ℚ) (d : JsDate), prev ≤ 0 → Cent prev →
      chainOK prev (buildEntries mp mir n prev d) := by
  induction n with
  | zero => intro prev d _ _; trivial
  | succ n ih =>
    intro prev d h1 h2
    simp only [buildEntries, chainOK]
    obtain ⟨e1, e2, e3, e4⟩ := loopStep_spec prev mp mir d _ rfl h1 h2
    exact ⟨e1, e3, e4, ih _ _ e1 e2⟩

theorem chainOK_adjacent (l : List AmortizationEntry) :
    ∀ (b : ℚ), chainOK b l → Cent b → ∀ (j : ℕ) (hj : j + 1 < l.length),
      ((l.get ⟨j + 1, hj⟩).remainingDebt ≤ 0) ∧
      (l.get ⟨j + 1, hj⟩).remainingDebt =
        roundToTwoDecimals ((l.get ⟨j, by omega⟩).remainingDebt +
          (l.get ⟨j + 1, hj⟩).repayment) := by
  induction l with
  | nil => intro b _ _ j hj; simp at hj
  | cons e rest ih =>
    intro b h hb j hj
    simp only [chainOK] at h
    obtain ⟨hd1, hc1, heq1, hrest⟩ := h
    have hbe : Cent e.remainingDebt := heq1 ▸ cent_add hb hc1
    cases j with
    | zero =>
      cases rest with
      | nil => simp at hj
      | cons e2 rest2 =>
        simp only [chainOK] at hrest
        obtain ⟨hd2, hc2, heq2, _⟩ := hrest
        refine ⟨hd2, ?_⟩
        show e2.remainingDebt =
          roundToTwoDecimals (e.remainingDebt + e2.repayment)
        rw [heq2, round2_of_cent (cent_add hbe hc2)]
    | succ j' =>
      have hj' : j' + 1 < rest.length := by
        simp only [List.length_cons] at hj
        omega
      exact ih e.remainingDebt hrest hbe j' hj'

theorem chainOK_last_sum (l : List AmortizationEntry) :
    ∀ b : ℚ, chainOK b l →
      lastBalance b l = b + (l.map AmortizationEntry.repayment).sum := by
  induction l with
  | nil => intro b _; simp [lastBalance]
  | cons e rest ih =>
    intro b h
    simp only [chainOK] at h
    obtain ⟨_, _, heq, hrest⟩ := h
    have hlast := ih e.remainingDebt hrest
    show lastBalance e.remainingDebt rest =
      b + (List.map AmortizationEntry.repayment (e :: rest)).sum
    rw [hlast, heq]
    simp only [List.map_cons, List.sum_cons]
    ring

theorem lastBalance_get (l : List AmortizationEntry) :
    ∀ (b : ℚ) (k : ℕ) (hk : k + 1 = l.length),
      lastBalance b l = (l.get ⟨k, by omega⟩).remainingDebt := by
  induction l with
  | nil => intro b k hk; simp at hk
  | cons e rest ih =>
    intro b k hk
    cases rest with
    | nil =>
      have hk0 : k = 0 := by simpa using hk
      subst hk0
      rfl
    | cons f fs =>
      cases k with
      | zero =>
        simp only [List.length_cons] at hk
        omega
      | succ k' =>
        have hk' : k' + 1 = (f :: fs).length := by
          simp only [List.length_cons] at hk ⊢
          omega
        have := ih e.remainingDebt k' hk'
        exact this

/-! ### Zero-balance propagation -/

theorem buildEntries_zero_all (mp mir : ℚ) (n : ℕ) :
    ∀ (d : JsDate), ∀ e ∈ buildEntries mp mir n 0 d, isZeroEntry e := by
  induction n with
  | zero => intro d e he; simp [buildEntries] at he
  | succ n ih =>
    intro d e he
    simp only [buildEntries] at he
    rw [if_pos (by rw [abs_zero]; exact zero_threshold_pos)] at he
    rcases List.mem_cons.mp he with h | h
    · subst h
      exact ⟨rfl, rfl, rfl, rfl⟩
    · exact ih _ e h

theorem buildEntries_zero_all' (mp mir : ℚ) (n : ℕ) (prev : ℚ)
    (hprev : prev = 0) (d : JsDate) :
    ∀ e ∈ buildEntries mp mir n prev d, isZeroEntry e := by
  subst hprev
  exact buildEntries_zero_all mp mir n d

theorem buildEntries_after_zero (mp mir : ℚ) (n : ℕ) :
    ∀ (prev : ℚ) (d : JsDate) (i j : ℕ)
      (hi : i < (buildEntries mp mir n prev d).length)
      (hj : j < (buildEntries mp mir n prev d).length), i < j →
      ((buildEntries mp mir n prev d).get ⟨i, hi⟩).remainingDebt = 0 →
      isZeroEntry ((buildEntries mp mir n prev d).get ⟨j, hj⟩) := by
  induction n with
  | zero =>
    intro prev d i j hi hj hij hzero
    rw [buildEntries_length] at hi
    omega
  | succ n ih =>
    intro prev d i j hi hj hij hzero
    simp only [buildEntries] at hi hj hzero ⊢
    cases j with
    | zero => omega
    | succ j' =>
      cases i with
      | zero =>
        have hE0 :
            (if |prev| < ZERO_THRESHOLD then _createZeroEntry d
             else _calculateNextPaymentEntry prev mp mir d).remainingDebt = 0 :=
          hzero
        have hj'' : j' < (buildEntries mp mir n
            (if |prev| < ZERO_THRESHOLD then _createZeroEntry d
             else _calculateNextPaymentEntry prev mp mir d).remainingDebt
            (getNextMonthEndDate d)).length := by
          simp only [List.length_cons] at hj
          omega
        exact buildEntries_zero_all' mp mir n _ hE0 (getNextMonthEndDate d) _
          (List.get_mem _ j' hj'')
      | succ i' =>
        have hi'' : i' < (buildEntries mp mir n
            (if |prev| < ZERO_THRESHOLD then _createZeroEntry d
             else _calculateNextPaymentEntry prev mp mir d).remainingDebt
            (getNextMonthEndDate d)).length := by
          simp only [List.length_cons] at hi
          omega
        have hj'' : j' < (buildEntries mp mir n
            (if |prev| < ZERO_THRESHOLD then _createZeroEntry d
             else _calculateNextPaymentEntry prev mp mir d).remainingDebt
            (getNextMonthEndDate d)).length := by
          simp only [List.length_cons] at hj
          omega
        exact ih _ (getNextMonthEndDate d) i' j' hi'' hj'' (by omega) hzero

/-! ### Shape of a successful plan -/

theorem plan_ok_elim {today : JsDate} {d : LoanData}
    {entries : List AmortizationEntry}
    (h : calculateAmortizationPlan today d = Except.ok entries) :
    isValidLoanData (some d.toJs) = true ∧
    ¬ (monthlyPaymentOf d ≤ firstMonthInterestOf d + ZERO_THRESHOLD) ∧
    entries = _createDisbursementEntry d.loanAmount (getMonthEndDate today) ::
      buildEntries (monthlyPaymentOf d) (d.interestRate / 100 / 12)
        (Int.toNat ⌈d.interestFixation * 12⌉)
        (_createDisbursementEntry d.loanAmount (getMonthEndDate today)).remainingDebt
        (getNextMonthEndDate (getMonthEndDate today)) := by
  by_cases hv : isValidLoanData (some d.toJs)
  · simp only [calculateAmortizationPlan, hv, Bool.not_true, Bool.false_eq_true,
      if_false] at h
    split at h
    · exact absurd h (by simp)
    · refine ⟨hv, ?_, ?_⟩
      · assumption
      · exact (Except.ok.inj h).symm
  · have hv' : isValidLoanData (some d.toJs) = false := by
      simpa using hv
    simp only [calculateAmortizationPlan, hv', Bool.not_false, if_true] at h
    exact absurd h (by simp)

theorem plan_chainOK {today : JsDate} {d : LoanData}
    {entries : List AmortizationEntry}
    (h : calculateAmortizationPlan today d = Except.ok entries) :
    chainOK 0 entries := by
  obtain ⟨hv, _, hE⟩ := plan_ok_elim h
  have hla : 0 < d.loanAmount := ((isValidLoanData_toJs d).mp hv).1
  subst hE
  have hdle : (_createDisbursementEntry d.loanAmount
      (getMonthEndDate today)).remainingDebt ≤ 0 := by
    show -(roundToTwoDecimals d.loanAmount) ≤ 0
    have := round2_nonneg hla.le
    linarith
  have hdc : Cent (_createDisbursementEntry d.loanAmount
      (getMonthEndDate today)).remainingDebt := by
    show Cent (-(roundToTwoDecimals d.loanAmount))
    exact cent_neg (round2_cent _)
  simp only [chainOK]
  refine ⟨hdle, ?_, ?_, ?_⟩
  · show Cent (-(roundToTwoDecimals d.loanAmount))
    exact cent_neg (round2_cent _)
  · show -(roundToTwoDecimals d.loanAmount) = 0 + -(roundToTwoDecimals d.loanAmount)
    ring
  · exact chainOK_buildEntries _ _ _ _ _ hdle hdc

theorem plan_zero_propagates {today : JsDate} {d : LoanData}
    {entries : List AmortizationEntry}
    (h : calculateAmortizationPlan today d = Except.ok entries)
    {i j : ℕ} (hij : i < j) (hi : i < entries.length) (hj : j < entries.length)
    (hzero : (entries.get ⟨i, hi⟩).remainingDebt = 0) :
    isZeroEntry (entries.get ⟨j, hj⟩) := by
  obtain ⟨hv, _, hE⟩ := plan_ok_elim h
  subst hE
  cases j with
  | zero => omega
  | succ j' =>
    have hj' : j' < (buildEntries (monthlyPaymentOf d) (d.interestRate / 100 / 12)
        (Int.toNat ⌈d.interestFixation * 12⌉)
        (_createDisbursementEntry d.loanAmount (getMonthEndDate today)).remainingDebt
        (getNextMonthEndDate (getMonthEndDate today))).length := by
      simp only [List.length_cons] at hj
      omega
    cases i with
    | zero =>
      exact buildEntries_zero_all' _ _ _ _ hzero _ _ (List.get_mem _ j' hj')
    | succ i' =>
      have hi' : i' < (buildEntries (monthlyPaymentOf d) (d.interestRate / 100 / 12)
          (Int.toNat ⌈d.interestFixation * 12⌉)
          (_createDisbursementEntry d.loanAmount (getMonthEndDate today)).remainingDebt
          (getNextMonthEndDate (getMonthEndDate today))).length := by
        simp only [List.length_cons] at hi
        omega
      exact buildEntries_after_zero _ _ _ _ _ i' j' hi' hj' (by omega) hzero

/-! ### Claim theorems -/

/-- C1: in every schedule returned by `calculateAmortizationPlan`, every
payment entry `i ≥ 1` has `endingBalance[i] ≤ 0` and
`endingBalance[i] = round2(endingBalance[i-1] + principalPortion[i])`: the
balance chains through the recorded principal portions and never becomes
positive, including at the clamped final installment. -/
theorem schedule_balance_chain (today : JsDate) (d : LoanData)
    (entries : List AmortizationEntry)
    (h : calculateAmortizationPlan today d = Except.ok entries)
    (i : ℕ) (h1 : 1 ≤ i) (h2 : i < entries.length) :
    (entries.get ⟨i, h2⟩).remainingDebt ≤ 0 ∧
    (entries.get ⟨i, h2⟩).remainingDebt =
      roundToTwoDecimals ((entries.get ⟨i - 1, by omega⟩).remainingDebt +
        (entries.get ⟨i, h2⟩).repayment) := by
  have hchain := plan_chainOK h
  obtain ⟨j, rfl⟩ : ∃ j, i = j + 1 := ⟨i - 1, by omega⟩
  have hadj := chainOK_adjacent entries 0 hchain cent_zero j h2
  simpa using hadj

/-- C4: for a valid input whose fixed period is a positive integer `y` of
years, a successful `calculateAmortizationPlan` returns exactly `y*12 + 1`
entries, and entry 0 is the disbursement entry carrying
`endingBalance = -round2(principal)`, `interestPortion = 0`,
`principalPortion = -round2(principal)` and `cashFlow = -round2(principal)`. -/
theorem schedule_length_and_head (today : JsDate) (d : LoanData) (y : ℕ)
    (hy : 0 < y) (hfix : d.interestFixation = (y : ℚ))
    (entries : List AmortizationEntry)
    (h : calculateAmortizationPlan today d = Except.ok entries) :
    entries.length = y * 12 + 1 ∧
    entries.head? = some
      { date := getMonthEndDate today,
        remainingDebt := -(roundToTwoDecimals d.loanAmount), interest := 0,
        repayment := -(roundToTwoDecimals d.loanAmount),
        payment := -(roundToTwoDecimals d.loanAmount) } := by
  obtain ⟨_, _, hE⟩ := plan_ok_elim h
  subst hE
  constructor
  · simp only [List.length_cons, buildEntries_length]
    rw [hfix]
    have hcast : (y : ℚ) * 12 = ((y * 12 : ℕ) : ℚ) := by push_cast; ring
    rw [hcast, Int.ceil_natCast]
    omega
  · rfl

/-- C3: the constant monthly installment used by the schedule generator is
`round2(principal * (annualRate/100 + initialRepayment/100) / 12)`; for
principal 100000, rate 5 and initial repayment 2 it equals 583.33. -/
theorem monthlyPayment_formula :
    (∀ loanAmount interestRate initialRepayment : ℚ,
      _calculateMonthlyPayment loanAmount interestRate initialRepayment =
        roundToTwoDecimals
          (loanAmount * (interestRate / 100 + initialRepayment / 100) / 12)) ∧
    _calculateMonthlyPayment 100000 5 2 = 583.33 := by
  constructor
  · intro la ir irp
    rfl
  · norm_num [_calculateMonthlyPayment, roundToTwoDecimals]

/-- C6: the engine's two-decimal rounding implements round-half-up rather
than round-half-to-even: `round2 1.005 = 1.01`, `round2 123.454 = 123.45`
and `round2 123.455 = 123.46`. -/
theorem roundToTwoDecimals_half_up :
    roundToTwoDecimals 1.005 = 1.01 ∧ roundToTwoDecimals 123.454 = 123.45 ∧
      roundToTwoDecimals 123.455 = 123.46 := by
  refine ⟨?_, ?_, ?_⟩ <;> norm_num [roundToTwoDecimals]

/-- C2: for every input that passes validation, `calculateAmortizationPlan`
fails with `InsufficientRateError` if and only if the computed monthly
payment is less than or equal to the rounded first-month interest within the
half-cent tolerance `ZERO_THRESHOLD = 0.005`; the result type carries no
schedule (not even a partial one) in the error case. -/
theorem insufficientRate_iff (today : JsDate) (d : LoanData)
    (hv : isValidLoanData (some d.toJs) = true) :
    (calculateAmortizationPlan today d =
        Except.error CalcError.insufficientRate) ↔
      monthlyPaymentOf d ≤ firstMonthInterestOf d + ZERO_THRESHOLD := by
  simp only [calculateAmortizationPlan, hv, Bool.not_true, Bool.false_eq_true,
    if_false]
  by_cases hr : _calculateMonthlyPayment d.loanAmount d.interestRate
      d.initialRepayment ≤
      roundToTwoDecimals (d.loanAmount * (d.interestRate / 100 / 12)) +
        ZERO_THRESHOLD
  · rw [if_pos hr]
    exact ⟨fun _ => hr, fun _ => rfl⟩
  · rw [if_neg hr]
    constructor
    · intro hcontra
      exact absurd hcontra (by simp)
    · intro hcontra
      exact absurd hcontra hr

/-- A plan invocation that passes both guards returns the disbursement entry
followed by the payment loop's entries. -/
theorem plan_ok_intro (today : JsDate) (d : LoanData)
    (hv : isValidLoanData (some d.toJs) = true)
    (hr : ¬ (monthlyPaymentOf d ≤ firstMonthInterestOf d + ZERO_THRESHOLD)) :
    calculateAmortizationPlan today d = Except.ok
      (_createDisbursementEntry d.loanAmount (getMonthEndDate today) ::
        buildEntries (monthlyPaymentOf d) (d.interestRate / 100 / 12)
          (Int.toNat ⌈d.interestFixation * 12⌉)
          (_createDisbursementEntry d.loanAmount
            (getMonthEndDate today)).remainingDebt
          (getNextMonthEndDate (getMonthEndDate today))) := by
  simp only [calculateAmortizationPlan, hv, Bool.not_true, Bool.false_eq_true,
    if_false]
  rw [if_neg (show ¬ (_calculateMonthlyPayment d.loanAmount d.interestRate
    d.initialRepayment ≤
    roundToTwoDecimals (d.loanAmount * (d.interestRate / 100 / 12)) +
      ZERO_THRESHOLD) from hr)]
  rfl

/-- C10: `isValidLoanData` does not require the fixed period to be an
integer: the half-year input `exD10` (`interestFixation = 0.5`) passes
validation, and `calculateAmortizationPlan` proceeds to generate a schedule
with `0.5 * 12 = 6` payment rows plus the disbursement entry instead of
rejecting the input. -/
theorem nonInteger_fixation_accepted :
    isValidLoanData (some exD10.toJs) = true ∧
      (calculateAmortizationPlan t0 exD10).map List.length = Except.ok 7 := by
  have hv : isValidLoanData (some exD10.toJs) = true := by
    norm_num [isValidLoanData, exD10, LoanData.toJs, jsGt, jsGe,
      JsVal.isNumberType]
  have hr : ¬ (monthlyPaymentOf exD10 ≤ firstMonthInterestOf exD10 +
      ZERO_THRESHOLD) := by
    norm_num [monthlyPaymentOf, firstMonthInterestOf, _calculateMonthlyPayment,
      roundToTwoDecimals, ZERO_THRESHOLD, exD10]
  refine ⟨hv, ?_⟩
  rw [plan_ok_intro t0 exD10 hv hr]
  have hceil : Int.toNat ⌈exD10.interestFixation * 12⌉ = 6 := by
    have h6 : (⌈exD10.interestFixation * 12⌉ : ℤ) = 6 := by norm_num [exD10]
    rw [h6]
    rfl
  simp only [Except.map, List.length_cons, buildEntries_length, hceil]

/-- A valid but insufficient configuration makes the plan fail with
`InsufficientRateError`. -/
theorem plan_insufficient_intro (today : JsDate) (d : LoanData)
    (hv : isValidLoanData (some d.toJs) = true)
    (hr : monthlyPaymentOf d ≤ firstMonthInterestOf d + ZERO_THRESHOLD) :
    calculateAmortizationPlan today d =
      Except.error CalcError.insufficientRate := by
  simp only [calculateAmortizationPlan, hv, Bool.not_true, Bool.false_eq_true,
    if_false]
  rw [if_pos (show _calculateMonthlyPayment d.loanAmount d.interestRate
    d.initialRepayment ≤
    roundToTwoDecimals (d.loanAmount * (d.interestRate / 100 / 12)) +
      ZERO_THRESHOLD from hr)]

/-- An invalid input makes the plan fail with `InvalidLoanDataError`. -/
theorem plan_invalid_intro (today : JsDate) (d : LoanData)
    (hv : isValidLoanData (some d.toJs) = false) :
    calculateAmortizationPlan today d =
      Except.error CalcError.invalidLoanData := by
  simp only [calculateAmortizationPlan, hv, Bool.not_false, if_true]

theorem foldl_add_map (f : AmortizationEntry → ℚ) (l : List AmortizationEntry) :
    ∀ a : ℚ, l.foldl (fun sum entry => sum + f entry) a = a + (l.map f).sum := by
  induction l with
  | nil => intro a; simp
  | cons e rest ih =>
    intro a
    simp only [List.foldl_cons, List.map_cons, List.sum_cons, ih]
    ring

theorem jsGt_true_iff (v : JsVal) (c : ℚ) :
    (v.isNumberType && jsGt v c) = true ↔
      (v = JsVal.posInf ∨ ∃ q, v = JsVal.num q ∧ c < q) := by
  cases v <;> simp [jsGt, JsVal.isNumberType]

theorem jsGe_true_iff (v : JsVal) (c : ℚ) :
    (v.isNumberType && jsGe v c) = true ↔
      (v = JsVal.posInf ∨ ∃ q, v = JsVal.num q ∧ c ≤ q) := by
  cases v <;> simp [jsGe, JsVal.isNumberType]

/-- Payment entries computed at different dates agree in all monetary
fields. -/
theorem nextEntry_numbers (prev mp mir : ℚ) (d1 d2 : JsDate) :
    entryNumbers (_calculateNextPaymentEntry prev mp mir d1) =
      entryNumbers (_calculateNextPaymentEntry prev mp mir d2) := by
  unfold _calculateNextPaymentEntry
  by_cases h : prev > 0
  · rw [if_pos h, if_pos h]
    rfl
  · rw [if_neg h, if_neg h]
    rfl

/-- The payment loop's monetary fields do not depend on the running date. -/
theorem buildEntries_numbers (mp mir : ℚ) (n : ℕ) :
    ∀ (prev : ℚ) (d1 d2 : JsDate),
      (buildEntries mp mir n prev d1).map entryNumbers =
        (buildEntries mp mir n prev d2).map entryNumbers := by
  induction n with
  | zero => intro prev d1 d2; rfl
  | succ n ih =>
    intro prev d1 d2
    simp only [buildEntries, List.map_cons]
    by_cases hz : |prev| < ZERO_THRESHOLD
    · rw [if_pos hz, if_pos hz]
      simp only [List.cons.injEq]
      exact ⟨rfl, ih 0 (getNextMonthEndDate d1) (getNextMonthEndDate d2)⟩
    · rw [if_neg hz, if_neg hz]
      have hnum := nextEntry_numbers prev mp mir d1 d2
      have hdebt : (_calculateNextPaymentEntry prev mp mir d1).remainingDebt =
          (_calculateNextPaymentEntry prev mp mir d2).remainingDebt :=
        congrArg (fun p : ℚ × ℚ × ℚ × ℚ => p.1) hnum
      simp only [List.cons.injEq]
      refine ⟨hnum, ?_⟩
      rw [hdebt]
      exact ih _ (getNextMonthEndDate d1) (getNextMonthEndDate d2)

/-- C7 fails on the code at a concrete input: a candidate whose loan amount
is `Infinity` is accepted by the implementation `isValidLoanData` even
though the claimed contract (all fields finite numbers) requires it to be
rejected, as `isValidLoanDataSpec` records. -/
theorem isValidLoanData_not_finite_cex :
    isValidLoanData (some nonFiniteLoanData) = true ∧
      isValidLoanDataSpec (some nonFiniteLoanData) = false := by
  constructor
  · norm_num [isValidLoanData, nonFiniteLoanData, jsGt, jsGe,
      JsVal.isNumberType]
  · rfl

/-- C7 (amended): `isValidLoanData` returns true iff the candidate is
non-null and each of the four fields is either `Infinity` or a finite number
satisfying its bound (`loanAmount > 0`, `interestRate ≥ 0` — zero allowed —,
`initialRepayment > 0`, `interestFixation > 0`).  Finiteness is not
required: `Infinity` passes every bound, while `NaN`, `-Infinity` and
non-number fields fail. -/
theorem isValidLoanData_characterization (c : Option LoanDataJs) :
    isValidLoanData c = true ↔
      ∃ d, c = some d ∧
        (d.loanAmount = JsVal.posInf ∨
          ∃ q, d.loanAmount = JsVal.num q ∧ 0 < q) ∧
        (d.interestRate = JsVal.posInf ∨
          ∃ q, d.interestRate = JsVal.num q ∧ 0 ≤ q) ∧
        (d.initialRepayment = JsVal.posInf ∨
          ∃ q, d.initialRepayment = JsVal.num q ∧ 0 < q) ∧
        (d.interestFixation = JsVal.posInf ∨
          ∃ q, d.interestFixation = JsVal.num q ∧ 0 < q) := by
  cases c with
  | none => simp [isValidLoanData]
  | some d =>
    simp only [isValidLoanData, Bool.and_eq_true, Option.some.injEq]
    constructor
    · rintro ⟨⟨⟨⟨⟨⟨⟨ht1, hg1⟩, ht2⟩, hg2⟩, ht3⟩, hg3⟩, ht4⟩, hg4⟩
      refine ⟨d, rfl, ?_, ?_, ?_, ?_⟩
      · exact (jsGt_true_iff d.loanAmount 0).mp
          (by rw [Bool.and_eq_true]; exact ⟨ht1, hg1⟩)
      · exact (jsGe_true_iff d.interestRate 0).mp
          (by rw [Bool.and_eq_true]; exact ⟨ht2, hg2⟩)
      · exact (jsGt_true_iff d.initialRepayment 0).mp
          (by rw [Bool.and_eq_true]; exact ⟨ht3, hg3⟩)
      · exact (jsGt_true_iff d.interestFixation 0).mp
          (by rw [Bool.and_eq_true]; exact ⟨ht4, hg4⟩)
    · rintro ⟨d2, hd2, hf1, hf2, hf3, hf4⟩
      cases hd2
      have c1 := (jsGt_true_iff d.loanAmount 0).mpr hf1
      have c2 := (jsGe_true_iff d.interestRate 0).mpr hf2
      have c3 := (jsGt_true_iff d.initialRepayment 0).mpr hf3
      have c4 := (jsGt_true_iff d.interestFixation 0).mpr hf4
      rw [Bool.and_eq_true] at c1 c2 c3 c4
      exact ⟨⟨⟨⟨⟨⟨⟨c1.1, c1.2⟩, c2.1⟩, c2.2⟩, c3.1⟩, c3.2⟩, c4.1⟩, c4.2⟩

/-- C8: once an entry of a returned schedule has ending balance zero, every
subsequent entry has all four monetary fields equal to zero (only the date
advances). -/
theorem schedule_zero_persists (today : JsDate) (d : LoanData)
    (entries : List AmortizationEntry)
    (h : calculateAmortizationPlan today d = Except.ok entries)
    (i j : ℕ) (hij : i < j) (hi : i < entries.length) (hj : j < entries.length)
    (hzero : (entries.get ⟨i, hi⟩).remainingDebt = 0) :
    isZeroEntry (entries.get ⟨j, hj⟩) :=
  plan_zero_propagates h hij hi hj hzero

/-- C9 fails as stated: `calculateAmortizationPlan` reads the invocation
date through `new Date()`, so two invocations with identical scalar inputs
made in different months return schedules whose dates differ — here the same
input produces different first entries at the reference dates `t0` and `t1`. -/
theorem plan_not_invocation_independent :
    calculateAmortizationPlan t0 exD1 ≠ calculateAmortizationPlan t1 exD1 := by
  have hv : isValidLoanData (some exD1.toJs) = true := by
    norm_num [isValidLoanData, exD1, LoanData.toJs, jsGt, jsGe,
      JsVal.isNumberType]
  have hr : ¬ (monthlyPaymentOf exD1 ≤ firstMonthInterestOf exD1 +
      ZERO_THRESHOLD) := by
    norm_num [monthlyPaymentOf, firstMonthInterestOf, _calculateMonthlyPayment,
      roundToTwoDecimals, ZERO_THRESHOLD, exD1]
  rw [plan_ok_intro t0 exD1 hv hr, plan_ok_intro t1 exD1 hv hr]
  intro hcontra
  have hlist := Except.ok.inj hcontra
  have hhead := congrArg List.head? hlist
  simp only [List.head?_cons, Option.some.injEq] at hhead
  have hdate : getMonthEndDate t0 = getMonthEndDate t1 :=
    congrArg AmortizationEntry.date hhead
  exact absurd hdate (by decide)

/-- C9 (amended): the schedule is a function of the four scalar inputs and
the invocation date; for a fixed invocation date it is fully deterministic,
and across different invocation dates all monetary fields of all entries
(and the error outcome) coincide — only the dates depend on the invocation
time. -/
theorem calculateAmortizationPlan_date_independent (td1 td2 : JsDate)
    (d : LoanData) :
    (calculateAmortizationPlan td1 d).map (List.map entryNumbers) =
      (calculateAmortizationPlan td2 d).map (List.map entryNumbers) := by
  by_cases hv : isValidLoanData (some d.toJs) = true
  · by_cases hr : monthlyPaymentOf d ≤ firstMonthInterestOf d + ZERO_THRESHOLD
    · rw [plan_insufficient_intro td1 d hv hr,
        plan_insufficient_intro td2 d hv hr]
    · rw [plan_ok_intro td1 d hv hr, plan_ok_intro td2 d hv hr]
      have htails := buildEntries_numbers (monthlyPaymentOf d)
        (d.interestRate / 100 / 12) (Int.toNat ⌈d.interestFixation * 12⌉)
        (-(roundToTwoDecimals d.loanAmount))
        (getNextMonthEndDate (getMonthEndDate td1))
        (getNextMonthEndDate (getMonthEndDate td2))
      show Except.ok
          (entryNumbers (_createDisbursementEntry d.loanAmount
            (getMonthEndDate td1)) ::
            List.map entryNumbers (buildEntries (monthlyPaymentOf d)
              (d.interestRate / 100 / 12) (Int.toNat ⌈d.interestFixation * 12⌉)
              (-(roundToTwoDecimals d.loanAmount))
              (getNextMonthEndDate (getMonthEndDate td1)))) =
        Except.ok
          (entryNumbers (_createDisbursementEntry d.loanAmount
            (getMonthEndDate td2)) ::
            List.map entryNumbers (buildEntries (monthlyPaymentOf d)
              (d.interestRate / 100 / 12) (Int.toNat ⌈d.interestFixation * 12⌉)
              (-(roundToTwoDecimals d.loanAmount))
              (getNextMonthEndDate (getMonthEndDate td2))))
      rw [htails]
      rfl
  · have hv' : isValidLoanData (some d.toJs) = false := by
      simpa using hv
    rw [plan_invalid_intro td1 d hv', plan_invalid_intro td2 d hv']

/-- C5: when a returned schedule reaches ending balance zero at or before
its last entry (the loan fully amortizes within the fixed period), the
summary's total principal paid equals the principal within rounding
tolerance (absolute difference at most 0.02). -/
theorem summary_total_principal (today : JsDate) (d : LoanData)
    (entries : List AmortizationEntry)
    (h : calculateAmortizationPlan today d = Except.ok entries)
    (hz : ∃ (k : ℕ) (hk : k < entries.length),
      (entries.get ⟨k, hk⟩).remainingDebt = 0) :
    |(calculateSummaryData entries).totalRepaymentPaid - d.loanAmount| ≤
      2 / 100 := by
  obtain ⟨k, hk, hk0⟩ := hz
  have hchain := plan_chainOK h
  obtain ⟨hv, hrr, hE⟩ := plan_ok_elim h
  have hpos : 0 < entries.length := by
    rw [hE]
    simp
  have hlast0 : (entries.get ⟨entries.length - 1, by omega⟩).remainingDebt
      = 0 := by
    rcases Nat.lt_or_ge k (entries.length - 1) with hlt | hge
    · exact (plan_zero_propagates h hlt hk (by omega) hk0).1
    · have hkeq : k = entries.length - 1 := by omega
      subst hkeq
      exact hk0
  have hsum := chainOK_last_sum entries 0 hchain
  have hlb : lastBalance 0 entries =
      (entries.get ⟨entries.length - 1, by omega⟩).remainingDebt :=
    lastBalance_get entries 0 (entries.length - 1) (by omega)
  rw [hlb, hlast0] at hsum
  have hsumall : (entries.map AmortizationEntry.repayment).sum = 0 := by
    linarith
  subst hE
  simp only [List.map_cons, List.sum_cons] at hsumall
  have hdisb : (_createDisbursementEntry d.loanAmount
      (getMonthEndDate today)).repayment = -(roundToTwoDecimals d.loanAmount) :=
    rfl
  rw [hdisb] at hsumall
  have htail : ((buildEntries (monthlyPaymentOf d) (d.interestRate / 100 / 12)
      (Int.toNat ⌈d.interestFixation * 12⌉)
      (_createDisbursementEntry d.loanAmount
        (getMonthEndDate today)).remainingDebt
      (getNextMonthEndDate (getMonthEndDate today))).map
        AmortizationEntry.repayment).sum = roundToTwoDecimals d.loanAmount := by
    linarith
  have hsummary : (calculateSummaryData
      (_createDisbursementEntry d.loanAmount (getMonthEndDate today) ::
        buildEntries (monthlyPaymentOf d) (d.interestRate / 100 / 12)
          (Int.toNat ⌈d.interestFixation * 12⌉)
          (_createDisbursementEntry d.loanAmount
            (getMonthEndDate today)).remainingDebt
          (getNextMonthEndDate (getMonthEndDate today)))).totalRepaymentPaid =
      roundToTwoDecimals d.loanAmount := by
    simp only [calculateSummaryData, List.isEmpty_cons, Bool.false_eq_true,
      if_false, List.drop_succ_cons, List.drop_zero]
    rw [foldl_add_map, zero_add, htail,
      round2_of_cent (round2_cent d.loanAmount)]
  rw [hsummary]
  have hb := round2_sub_le d.loanAmount
  have : |roundToTwoDecimals d.loanAmount - d.loanAmount| ≤ 2 / 100 := by
    linarith [hb]
  exact this

/-! ### Concrete date computations used by the witnesses -/

theorem monthEndDate_t0 :
    getMonthEndDate t0 = { year := 2026, month := 0, day := 31 } := by decide

theorem nextDate_0 :
    getNextMonthEndDate { year := 2026, month := 0, day := 31 } =
      { year := 2026, month := 1, day := 28 } := by decide

theorem nextDate_1 :
    getNextMonthEndDate { year := 2026, month := 1, day := 28 } =
      { year := 2026, month := 2, day := 31 } := by decide

theorem nextDate_2 :
    getNextMonthEndDate { year := 2026, month := 2, day := 31 } =
      { year := 2026, month := 3, day := 30 } := by decide

theorem nextDate_3 :
    getNextMonthEndDate { year := 2026, month := 3, day := 30 } =
      { year := 2026, month := 4, day := 31 } := by decide

theorem nextDate_4 :
    getNextMonthEndDate { year := 2026, month := 4, day := 31 } =
      { year := 2026, month := 5, day := 30 } := by decide

theorem nextDate_5 :
    getNextMonthEndDate { year := 2026, month := 5, day := 30 } =
      { year := 2026, month := 6, day := 31 } := by decide

theorem nextDate_6 :
    getNextMonthEndDate { year := 2026, month := 6, day := 31 } =
      { year := 2026, month := 7, day := 31 } := by decide

theorem nextDate_7 :
    getNextMonthEndDate { year := 2026, month := 7, day := 31 } =
      { year := 2026, month := 8, day := 30 } := by decide

theorem nextDate_8 :
    getNextMonthEndDate { year := 2026, month := 8, day := 30 } =
      { year := 2026, month := 9, day := 31 } := by decide

theorem nextDate_9 :
    getNextMonthEndDate { year := 2026, month := 9, day := 31 } =
      { year := 2026, month := 10, day := 30 } := by decide

theorem nextDate_10 :
    getNextMonthEndDate { year := 2026, month := 10, day := 30 } =
      { year := 2026, month := 11, day := 31 } := by decide

theorem nextDate_11 :
    getNextMonthEndDate { year := 2026, month := 11, day := 31 } =
      { year := 2027, month := 0, day := 31 } := by decide

/-! ### Concrete schedules for the witnesses -/

theorem exD1_valid : isValidLoanData (some exD1.toJs) = true := by
  norm_num [isValidLoanData, exD1, LoanData.toJs, jsGt, jsGe,
    JsVal.isNumberType]

theorem exD1_viable :
    ¬ (monthlyPaymentOf exD1 ≤ firstMonthInterestOf exD1 + ZERO_THRESHOLD) := by
  norm_num [monthlyPaymentOf, firstMonthInterestOf, _calculateMonthlyPayment,
    roundToTwoDecimals, ZERO_THRESHOLD, exD1]

theorem exD1_plan : calculateAmortizationPlan t0 exD1 = Except.ok exList1 := by
  rw [plan_ok_intro t0 exD1 exD1_valid exD1_viable]
  have hn : Int.toNat ⌈exD1.interestFixation * 12⌉ = 1 := by
    have h1 : (⌈exD1.interestFixation * 12⌉ : ℤ) = 1 := by norm_num [exD1]
    rw [h1]
    rfl
  rw [hn, monthEndDate_t0]
  congr 1
  norm_num [buildEntries, _createDisbursementEntry, _calculateNextPaymentEntry,
    _createZeroEntry, monthlyPaymentOf, _calculateMonthlyPayment,
    roundToTwoDecimals, ZERO_THRESHOLD, exD1, exList1, abs_lt, nextDate_0]

theorem exD2_valid : isValidLoanData (some exD2.toJs) = true := by
  norm_num [isValidLoanData, exD2, LoanData.toJs, jsGt, jsGe,
    JsVal.isNumberType]

theorem exD4_valid : isValidLoanData (some exD4.toJs) = true := by
  norm_num [isValidLoanData, exD4, LoanData.toJs, jsGt, jsGe,
    JsVal.isNumberType]

theorem exD4_viable :
    ¬ (monthlyPaymentOf exD4 ≤ firstMonthInterestOf exD4 + ZERO_THRESHOLD) := by
  norm_num [monthlyPaymentOf, firstMonthInterestOf, _calculateMonthlyPayment,
    roundToTwoDecimals, ZERO_THRESHOLD, exD4]

theorem exD4_plan : calculateAmortizationPlan t0 exD4 = Except.ok exList4 := by
  rw [plan_ok_intro t0 exD4 exD4_valid exD4_viable]
  have hn : Int.toNat ⌈exD4.interestFixation * 12⌉ = 12 := by
    have h1 : (⌈exD4.interestFixation * 12⌉ : ℤ) = 12 := by norm_num [exD4]
    rw [h1]
    rfl
  rw [hn, monthEndDate_t0]
  congr 1
  norm_num [buildEntries, _createDisbursementEntry, _calculateNextPaymentEntry,
    _createZeroEntry, monthlyPaymentOf, _calculateMonthlyPayment,
    roundToTwoDecimals, ZERO_THRESHOLD, exD4, exList4, abs_lt, nextDate_0,
    nextDate_1, nextDate_2, nextDate_3, nextDate_4, nextDate_5, nextDate_6,
    nextDate_7, nextDate_8, nextDate_9, nextDate_10, nextDate_11]

theorem exD5_valid : isValidLoanData (some exD5.toJs) = true := by
  norm_num [isValidLoanData, exD5, LoanData.toJs, jsGt, jsGe,
    JsVal.isNumberType]

theorem exD5_viable :
    ¬ (monthlyPaymentOf exD5 ≤ firstMonthInterestOf exD5 + ZERO_THRESHOLD) := by
  norm_num [monthlyPaymentOf, firstMonthInterestOf, _calculateMonthlyPayment,
    roundToTwoDecimals, ZERO_THRESHOLD, exD5]

theorem exD5_plan : calculateAmortizationPlan t0 exD5 = Except.ok exList5 := by
  rw [plan_ok_intro t0 exD5 exD5_valid exD5_viable]
  have hn : Int.toNat ⌈exD5.interestFixation * 12⌉ = 1 := by
    have h1 : (⌈exD5.interestFixation * 12⌉ : ℤ) = 1 := by norm_num [exD5]
    rw [h1]
    rfl
  rw [hn, monthEndDate_t0]
  congr 1
  norm_num [buildEntries, _createDisbursementEntry, _calculateNextPaymentEntry,
    _createZeroEntry, monthlyPaymentOf, _calculateMonthlyPayment,
    roundToTwoDecimals, ZERO_THRESHOLD, exD5, exList5, abs_lt, nextDate_0]

theorem exD8_valid : isValidLoanData (some exD8.toJs) = true := by
  norm_num [isValidLoanData, exD8, LoanData.toJs, jsGt, jsGe,
    JsVal.isNumberType]

theorem exD8_viable :
    ¬ (monthlyPaymentOf exD8 ≤ firstMonthInterestOf exD8 + ZERO_THRESHOLD) := by
  norm_num [monthlyPaymentOf, firstMonthInterestOf, _calculateMonthlyPayment,
    roundToTwoDecimals, ZERO_THRESHOLD, exD8]

theorem exD8_plan : calculateAmortizationPlan t0 exD8 = Except.ok exList8 := by
  rw [plan_ok_intro t0 exD8 exD8_valid exD8_viable]
  have hn : Int.toNat ⌈exD8.interestFixation * 12⌉ = 2 := by
    have h1 : (⌈exD8.interestFixation * 12⌉ : ℤ) = 2 := by norm_num [exD8]
    rw [h1]
    rfl
  rw [hn, monthEndDate_t0]
  congr 1
  norm_num [buildEntries, _createDisbursementEntry, _calculateNextPaymentEntry,
    _createZeroEntry, monthlyPaymentOf, _calculateMonthlyPayment,
    roundToTwoDecimals, ZERO_THRESHOLD, exD8, exList8, abs_lt, nextDate_0,
    nextDate_1]

/-! ### Witnesses -/

/-- Witness for C1: the schedule of `exD1` satisfies the balance-chain
property at its payment entry with index 1. -/
theorem schedule_balance_chain_witness :
    calculateAmortizationPlan t0 exD1 = Except.ok exList1 ∧ (1 ≤ 1) ∧
    (1 < exList1.length) ∧
    ((exList1.get ⟨1, by norm_num [exList1]⟩).remainingDebt ≤ 0 ∧
      (exList1.get ⟨1, by norm_num [exList1]⟩).remainingDebt =
        roundToTwoDecimals
          ((exList1.get ⟨0, by norm_num [exList1]⟩).remainingDebt +
            (exList1.get ⟨1, by norm_num [exList1]⟩).repayment)) := by
  have hlen : 1 < exList1.length := by norm_num [exList1]
  exact ⟨exD1_plan, le_refl 1, hlen,
    schedule_balance_chain t0 exD1 exList1 exD1_plan 1 (le_refl 1) hlen⟩

/-- Witness for C2: `exD2` (principal 1000, rate 12%, initial repayment
0.001%) is valid, and the error/threshold equivalence holds for it. -/
theorem insufficientRate_iff_witness :
    isValidLoanData (some exD2.toJs) = true ∧
      (calculateAmortizationPlan t0 exD2 =
          Except.error CalcError.insufficientRate ↔
        monthlyPaymentOf exD2 ≤ firstMonthInterestOf exD2 + ZERO_THRESHOLD) :=
  ⟨exD2_valid, insufficientRate_iff t0 exD2 exD2_valid⟩

/-- Witness for C4: the one-year example schedule has 13 entries and the
expected disbursement head entry. -/
theorem schedule_length_and_head_witness :
    (0 < 1) ∧ exD4.interestFixation = ((1 : ℕ) : ℚ) ∧
    calculateAmortizationPlan t0 exD4 = Except.ok exList4 ∧
    (exList4.length = 1 * 12 + 1 ∧
      exList4.head? = some
        { date := getMonthEndDate t0,
          remainingDebt := -(roundToTwoDecimals exD4.loanAmount),
          interest := 0,
          repayment := -(roundToTwoDecimals exD4.loanAmount),
          payment := -(roundToTwoDecimals exD4.loanAmount) }) := by
  refine ⟨by norm_num, by norm_num [exD4], exD4_plan, ?_⟩
  exact schedule_length_and_head t0 exD4 1 (by norm_num) (by norm_num [exD4])
    exList4 exD4_plan

/-- Witness for C5: the fully amortizing schedule of `exD5` reaches balance
zero and its summary's total principal paid is within 0.02 of the
principal. -/
theorem summary_total_principal_witness :
    calculateAmortizationPlan t0 exD5 = Except.ok exList5 ∧
    (∃ (k : ℕ) (hk : k < exList5.length),
      (exList5.get ⟨k, hk⟩).remainingDebt = 0) ∧
    |(calculateSummaryData exList5).totalRepaymentPaid - exD5.loanAmount| ≤
      2 / 100 := by
  have hz : ∃ (k : ℕ) (hk : k < exList5.length),
      (exList5.get ⟨k, hk⟩).remainingDebt = 0 :=
    ⟨1, by norm_num [exList5], rfl⟩
  exact ⟨exD5_plan, hz, summary_total_principal t0 exD5 exList5 exD5_plan hz⟩

/-- Witness for C8: in the schedule of `exD8`, entry 1 reaches balance zero
and entry 2 is an all-zero entry. -/
theorem schedule_zero_persists_witness :
    calculateAmortizationPlan t0 exD8 = Except.ok exList8 ∧ (1 < 2) ∧
    (1 < exList8.length) ∧ (2 < exList8.length) ∧
    (exList8.get ⟨1, by norm_num [exList8]⟩).remainingDebt = 0 ∧
    isZeroEntry (exList8.get ⟨2, by norm_num [exList8]⟩) := by
  refine ⟨exD8_plan, by norm_num, by norm_num [exList8], by norm_num [exList8],
    rfl, ?_⟩
  exact schedule_zero_persists t0 exD8 exList8 exD8_plan 1 2 (by norm_num)
    (by norm_num [exList8]) (by norm_num [exList8]) rfl
